import Mathlib

/-!
Shallow embedding of `input_graphics_sound_menu.hpp` (class
`InputGraphicsSoundMenu`): the UI-state enumeration, the dependency
resolver, the per-frame render-set assembly, the pointer coordinate
transform, the configuration store interactions and every callback the
menu wires into its screens, together with theorems about them.
-/

/-- The `UIState` enum of the source, one constructor per enumerator. -/
inductive UIState
  | MAIN_MENU
  | SETTINGS_MENU
  | PROGRAM_SETTINGS
  | INPUT_SETTINGS
  | SOUND_SETTINGS
  | GRAPHICS_SETTINGS
  | ADVANCED_SETTINGS
  | ABOUT
deriving DecidableEq, Repr

/-- The two sound kinds the menu queues (`SoundType::UI_HOVER`, `SoundType::UI_CLICK`). -/
inductive SoundType
  | UI_HOVER
  | UI_CLICK
deriving DecidableEq, Repr

/-- The external configuration store, modelled as an association list from
(section, key) to string value; `set_value` and `get_value` below give the
map semantics the module relies on. -/
abbrev Config : Type := List ((String × String) × String)

/-- `Configuration::set_value(section, key, value)`: afterwards the pair maps
to `value`; all other pairs are unaffected. -/
def set_value (c : Config) (sec key value : String) : Config :=
  ((sec, key), value) :: c.filter (fun e => e.1 ≠ (sec, key))

/-- `Configuration::get_value(section, key) -> optional<string>`. -/
def get_value (c : Config) (sec key : String) : Option String :=
  (c.find? (fun e => e.1 = (sec, key))).map (fun e => e.2)

/-- The observable state the menu's callbacks read and write: the public
`enabled` and `curr_state` members, the GLFW window-should-close flag, the
queue of sounds sent to the sound system, the configuration store, the
logger's warnings, lines printed to stdout, and operations requested of the
window by the registered config handlers. -/
structure MenuState where
  enabled : Bool
  curr_state : UIState
  window_should_close : Bool
  sounds : List SoundType
  config : Config
  warnings : List String
  stdout : List String
  window_events : List String

/-- `sound_system.queue_sound(t)`. -/
def queue_sound (s : MenuState) (t : SoundType) : MenuState :=
  { s with sounds := s.sounds ++ [t] }

/-- The state right after construction: `enabled = true`,
`curr_state = UIState::MAIN_MENU`, nothing queued, empty configuration. -/
def initial_menu_state : MenuState :=
  { enabled := true
    curr_state := UIState.MAIN_MENU
    window_should_close := false
    sounds := []
    config := []
    warnings := []
    stdout := []
    window_events := [] }

/-- `get_ui_dependencies`: the switch over `UIState` returning the states
that must render alongside the given one. -/
def get_ui_dependencies : UIState → List UIState
  | UIState.MAIN_MENU => []
  | UIState.SETTINGS_MENU => []
  | UIState.PROGRAM_SETTINGS => [UIState.SETTINGS_MENU]
  | UIState.INPUT_SETTINGS => [UIState.SETTINGS_MENU]
  | UIState.SOUND_SETTINGS => [UIState.SETTINGS_MENU]
  | UIState.GRAPHICS_SETTINGS => [UIState.SETTINGS_MENU]
  | UIState.ADVANCED_SETTINGS => [UIState.SETTINGS_MENU]
  | UIState.ABOUT => []

/-- The render set built in `process_and_queue_render_menu`:
`uis_to_render` starts as `{curr_state}` and the dependencies are pushed
after it. -/
def uis_to_render (curr_state : UIState) : List UIState :=
  curr_state :: get_ui_dependencies curr_state

/-- The key set of the `game_state_to_ui` map, in the initializer's order. -/
def registry_states : List UIState :=
  [UIState.MAIN_MENU, UIState.ABOUT, UIState.SETTINGS_MENU,
   UIState.PROGRAM_SETTINGS, UIState.INPUT_SETTINGS, UIState.SOUND_SETTINGS,
   UIState.GRAPHICS_SETTINGS, UIState.ADVANCED_SETTINGS]

/-- The states whose UIs `process_and_queue_render_menu` hands to
`process_and_queue_render_ui`, in loop order: the render set filtered by
membership in `game_state_to_ui`. -/
def processed_states (curr_state : UIState) : List UIState :=
  (uis_to_render curr_state).filter (fun s => registry_states.contains s)

/-- `get_ndc_mouse_pos`: `((2*xpos)/width - 1, 1 - (2*ypos)/height)`,
with the real arithmetic of the source carried out over ℚ. -/
def get_ndc_mouse_pos (width height xpos ypos : ℚ) : ℚ × ℚ :=
  ((2 * xpos) / width - 1, 1 - (2 * ypos) / height)

/-- `aspect_corrected_ndc_mouse_pos`: scales the x coordinate by `x_scale`. -/
def aspect_corrected_ndc_mouse_pos (ndc_mouse_pos : ℚ × ℚ) (x_scale : ℚ) : ℚ × ℚ :=
  (ndc_mouse_pos.1 * x_scale, ndc_mouse_pos.2)

/-- The composite transform `process_and_queue_render_menu` applies to the
raw pointer position: normalize then aspect-correct with
`x_scale = width / height`. -/
def pointer_to_corrected (raw_x raw_y width height : ℚ) : ℚ × ℚ :=
  aspect_corrected_ndc_mouse_pos (get_ndc_mouse_pos width height raw_x raw_y) (width / height)

namespace MainMenu

/-- `create_main_menu_ui`: `on_program_start` (the RESUME button's click). -/
def on_program_start (s : MenuState) : MenuState :=
  { queue_sound s SoundType.UI_CLICK with enabled := false }

/-- `create_main_menu_ui`: `on_click_settings` (the SETTINGS button's click). -/
def on_click_settings (s : MenuState) : MenuState :=
  { queue_sound s SoundType.UI_CLICK with curr_state := UIState.PROGRAM_SETTINGS }

/-- `create_main_menu_ui`: `on_click_about` (the ABOUT button's click). -/
def on_click_about (s : MenuState) : MenuState :=
  { queue_sound s SoundType.UI_CLICK with curr_state := UIState.ABOUT }

/-- `create_main_menu_ui`: `on_game_quit` (the QUIT button's click):
queues a click sound and calls `glfwSetWindowShouldClose(..., GLFW_TRUE)`. -/
def on_game_quit (s : MenuState) : MenuState :=
  { queue_sound s SoundType.UI_CLICK with window_should_close := true }

/-- `create_main_menu_ui`: the locally defined (unattached) `on_back_clicked`. -/
def on_back_clicked (s : MenuState) : MenuState :=
  { queue_sound s SoundType.UI_CLICK with curr_state := UIState.MAIN_MENU }

end MainMenu

namespace About

/-- `create_about_ui`: `on_back_clicked` (no sound is queued here). -/
def on_back_clicked (s : MenuState) : MenuState :=
  { s with curr_state := UIState.MAIN_MENU }

/-- `create_about_ui`: `on_confirm` prints the contents to stdout. -/
def on_confirm (s : MenuState) (contents : String) : MenuState :=
  { s with stdout := s.stdout ++ [contents] }

end About

namespace SettingsMenu

/-- `create_settings_menu_ui`: `on_back_clicked` (the BACK button's click). -/
def on_back_clicked (s : MenuState) : MenuState :=
  { queue_sound s SoundType.UI_CLICK with curr_state := UIState.MAIN_MENU }

/-- `create_settings_menu_ui`: `on_apply_clicked` (APPLY): queues a click and
runs `configuration.apply_config_logic()`, which re-invokes the registered
handlers; only the sound is observable on the menu state itself. -/
def on_apply_clicked (s : MenuState) : MenuState :=
  queue_sound s SoundType.UI_CLICK

/-- `create_settings_menu_ui`: `on_save_clicked` (SAVE). -/
def on_save_clicked (s : MenuState) : MenuState :=
  queue_sound s SoundType.UI_CLICK

/-- `create_settings_menu_ui`: `settings_on_click` (sound only). -/
def settings_on_click (s : MenuState) : MenuState :=
  queue_sound s SoundType.UI_CLICK

/-- `create_settings_menu_ui`: `player_on_click`. -/
def player_on_click (s : MenuState) : MenuState :=
  { queue_sound s SoundType.UI_CLICK with curr_state := UIState.PROGRAM_SETTINGS }

/-- `create_settings_menu_ui`: `input_on_click`. -/
def input_on_click (s : MenuState) : MenuState :=
  { queue_sound s SoundType.UI_CLICK with curr_state := UIState.INPUT_SETTINGS }

/-- `create_settings_menu_ui`: `sound_on_click`. -/
def sound_on_click (s : MenuState) : MenuState :=
  { queue_sound s SoundType.UI_CLICK with curr_state := UIState.SOUND_SETTINGS }

/-- `create_settings_menu_ui`: `graphics_on_click`. -/
def graphics_on_click (s : MenuState) : MenuState :=
  { queue_sound s SoundType.UI_CLICK with curr_state := UIState.GRAPHICS_SETTINGS }

/-- `create_settings_menu_ui`: `network_on_click`. -/
def network_on_click (s : MenuState) : MenuState :=
  { queue_sound s SoundType.UI_CLICK with curr_state := UIState.ADVANCED_SETTINGS }

end SettingsMenu

/-- The member `on_hover` lambda: queues a hover sound. -/
def on_hover (s : MenuState) : MenuState :=
  queue_sound s SoundType.UI_HOVER

/-- The member `dropdown_on_hover` lambda: ignores the option string and
queues a hover sound. -/
def dropdown_on_hover (s : MenuState) (_option : String) : MenuState :=
  queue_sound s SoundType.UI_HOVER

namespace PlayerSettings

/-- `create_player_settings_ui`: `on_confirm` prints the contents. -/
def on_confirm (s : MenuState) (contents : String) : MenuState :=
  { s with stdout := s.stdout ++ [contents] }

/-- `create_player_settings_ui`: `username_on_confirm` does nothing. -/
def username_on_confirm (s : MenuState) (_v : String) : MenuState := s

end PlayerSettings

namespace InputSettings

/-- `create_input_settings_ui`: `sens_on_click` writes the mouse
sensitivity and queues a click sound. -/
def sens_on_click (s : MenuState) (option : String) : MenuState :=
  { queue_sound s SoundType.UI_CLICK with
    config := set_value s.config "input" "mouse_sensitivity" option }

/-- `create_input_settings_ui`: `on_confirm` prints the contents. -/
def on_confirm (s : MenuState) (contents : String) : MenuState :=
  { s with stdout := s.stdout ++ [contents] }

/-- `create_input_settings_ui`: the closure returned by
`create_key_on_confirm_function(key_str)`. The validity check
`input_state.is_valid_key_string` lives outside this module, so it is a
parameter; a valid input is persisted under ("input", key_str) and a click
sound is queued, an invalid one only appends a warning to the logger. -/
def key_on_confirm (is_valid_key_string : String → Bool) (key_str : String)
    (s : MenuState) (input_value : String) : MenuState :=
  if is_valid_key_string input_value then
    { s with config := set_value s.config "input" key_str input_value
             sounds := s.sounds ++ [SoundType.UI_CLICK] }
  else
    { s with warnings := s.warnings ++
        [input_value ++ " is not a valid key string, not setting it in the config, use a proper value."] }

/-- The key-binding input boxes of `create_input_settings_ui`, as (label of
the adjacent textbox, `key_str` passed to `create_key_on_confirm_function`)
pairs, in construction order. -/
def key_binding_boxes : List (String × String) :=
  [("move forward", "forward"),
   ("move backward", "back"),
   ("move left", "left"),
   ("move right", "right"),
   ("move up", "left"),
   ("move down", "down"),
   ("slow move", "slow_move"),
   ("fast move", "fast_move")]

end InputSettings

/-- The error conditions `std::stoi` can raise. -/
inductive StoiError
  | invalidArgument
  | outOfRange
deriving DecidableEq, Repr

/-- The numeric value of a list of decimal digit characters. -/
def digitsToNat (ds : List Char) : Nat :=
  ds.foldl (fun acc d => 10 * acc + (d.toNat - Char.toNat '0')) 0

/-- `std::stoi` with base 10: skip leading whitespace, an optional sign,
then a maximal run of decimal digits; `invalid_argument` when no digit
follows, `out_of_range` when the value does not fit a 32-bit int. The
characters after the digit run are ignored. -/
def stoi (s : String) : Except StoiError Int :=
  let cs := s.data.dropWhile (fun c => c.isWhitespace)
  let signed : Int × List Char :=
    match cs with
    | '-' :: r => (-1, r)
    | '+' :: r => (1, r)
    | r => (1, r)
  let ds := signed.2.takeWhile (fun c => c.isDigit)
  if ds.isEmpty then Except.error StoiError.invalidArgument
  else
    let v : Int := signed.1 * (digitsToNat ds : Int)
    if v < -(2 ^ 31) ∨ 2 ^ 31 - 1 < v then Except.error StoiError.outOfRange
    else Except.ok v

/-- `std::string::find(c)`: index of the first occurrence, `none` for
`std::string::npos`. -/
def findChar : List Char → Char → Option Nat
  | [], _ => none
  | c :: cs, t => if c = t then some 0 else (findChar cs t).map (fun i => i + 1)

/-- `get_index_or_default`: position of `value` in `vec` via
`std::find`/`std::distance`, 0 when absent. -/
def get_index_or_default (value : String) (vec : List String) : Nat :=
  match vec.indexOf? value with
  | some i => i
  | none => 0

namespace GraphicsSettings

/-- `create_graphics_settings_ui`: the fallback applied to the result of
`get_available_resolutions("16:9")` — when empty, the single hardcoded
option "1920x1080" replaces it. -/
def resolutions_with_fallback (queried : List String) : List String :=
  if queried.isEmpty then ["1920x1080"] else queried

/-- `create_graphics_settings_ui`: `on_confirm` prints the contents. -/
def on_confirm (s : MenuState) (contents : String) : MenuState :=
  { s with stdout := s.stdout ++ [contents] }

/-- `create_graphics_settings_ui`: its local `on_click_settings` (no sound). -/
def on_click_settings (s : MenuState) : MenuState :=
  { s with curr_state := UIState.PROGRAM_SETTINGS }

/-- `create_graphics_settings_ui`: `empty_on_click` prints the option. -/
def empty_on_click (s : MenuState) (option : String) : MenuState :=
  { s with stdout := s.stdout ++ [option] }

/-- What the thrown `std::invalid_argument` of
`resolution_dropdown_on_click` or a throwing `std::stoi` call looks like
from the caller. -/
inductive ResolutionClickError
  | stoiFailure (e : StoiError)
  | invalidFormat
deriving DecidableEq, Repr

/-- `create_graphics_settings_ui`: `resolution_dropdown_on_click`. It
queues a click sound first; then, when the option contains an 'x', parses
`substr(0, x_pos)` and `substr(x_pos + 1)` with `std::stoi` (each may
throw) and persists the option verbatim under ("graphics", "resolution");
without an 'x' it throws `std::invalid_argument`. The second component is
the exception escaping the callback, the first the state it leaves behind. -/
def resolution_dropdown_on_click (s : MenuState) (option : String) :
    MenuState × Option ResolutionClickError :=
  let s1 := queue_sound s SoundType.UI_CLICK
  match findChar option.data 'x' with
  | some x_pos =>
    match stoi (String.mk (option.data.take x_pos)) with
    | Except.error e => (s1, some (ResolutionClickError.stoiFailure e))
    | Except.ok _ =>
      match stoi (String.mk (option.data.drop (x_pos + 1))) with
      | Except.error e => (s1, some (ResolutionClickError.stoiFailure e))
      | Except.ok _ =>
        ({ s1 with config := set_value s1.config "graphics" "resolution" option }, none)
  | none => (s1, some ResolutionClickError.invalidFormat)

/-- `create_graphics_settings_ui`: `fullscreen_on_click`. -/
def fullscreen_on_click (s : MenuState) (option : String) : MenuState :=
  { queue_sound s SoundType.UI_CLICK with
    config := set_value s.config "graphics" "fullscreen" option }

/-- `create_graphics_settings_ui`: `wireframe_on_click`. -/
def wireframe_on_click (s : MenuState) (option : String) : MenuState :=
  { queue_sound s SoundType.UI_CLICK with
    config := set_value s.config "graphics" "wireframe" option }

/-- `create_graphics_settings_ui`: `fov_on_confirm` (no sound). -/
def fov_on_confirm (s : MenuState) (option : String) : MenuState :=
  { s with config := set_value s.config "graphics" "field_of_view" option }

/-- `create_graphics_settings_ui`: `max_fps_on_confirm` (no sound). -/
def max_fps_on_confirm (s : MenuState) (option : String) : MenuState :=
  { s with config := set_value s.config "graphics" "max_fps" option }

/-- `create_graphics_settings_ui`: `show_fps_on_click` (no sound). -/
def show_fps_on_click (s : MenuState) (option : String) : MenuState :=
  { s with config := set_value s.config "graphics" "show_fps" option }

/-- `create_graphics_settings_ui`: `show_pos_on_click` (no sound). -/
def show_pos_on_click (s : MenuState) (option : String) : MenuState :=
  { s with config := set_value s.config "graphics" "show_pos" option }

/-- One `add_dropdown` call of `create_graphics_settings_ui`: its option
list, the `dropdown_option_idx` passed as initial selection, and the
configuration key its click callback writes. -/
structure Dropdown where
  options : List String
  selected : Nat
  config_section : String
  config_key : String
deriving DecidableEq, Repr

/-- The five dropdowns of `create_graphics_settings_ui` in construction
order, as a function of the configuration and of what
`get_available_resolutions("16:9")` returned. `dropdown_option_idx` is the
single mutable local of the source: it is recomputed before the
resolution, fullscreen and wireframe dropdowns, and the show-fps and
show-pos dropdowns are constructed with its value left over from the
wireframe computation. -/
def create_graphics_settings_dropdowns (config : Config) (queried : List String) :
    List Dropdown :=
  let options := resolutions_with_fallback queried
  let on_off_options := ["on", "off"]
  let idx_resolution :=
    get_index_or_default ((get_value config "graphics" "resolution").getD "1280x720") options
  let idx_fullscreen :=
    get_index_or_default ((get_value config "graphics" "fullscreen").getD "off") on_off_options
  let idx_wireframe :=
    get_index_or_default ((get_value config "graphics" "wireframe").getD "off") on_off_options
  [{ options := options, selected := idx_resolution,
     config_section := "graphics", config_key := "resolution" },
   { options := on_off_options, selected := idx_fullscreen,
     config_section := "graphics", config_key := "fullscreen" },
   { options := on_off_options, selected := idx_wireframe,
     config_section := "graphics", config_key := "wireframe" },
   { options := on_off_options, selected := idx_wireframe,
     config_section := "graphics", config_key := "show_fps" },
   { options := on_off_options, selected := idx_wireframe,
     config_section := "graphics", config_key := "show_pos" }]

end GraphicsSettings

namespace ConfigHandlers

/-- The handler registered for ("graphics", "resolution"): calls
`window.set_resolution(resolution)`. -/
def resolution_handler (s : MenuState) (resolution : String) : MenuState :=
  { s with window_events := s.window_events ++ ["set_resolution " ++ resolution] }

/-- The handler registered for ("graphics", "fullscreen"): calls
`window.set_fullscreen_by_on_off(value)`. -/
def fullscreen_handler (s : MenuState) (value : String) : MenuState :=
  { s with window_events := s.window_events ++ ["set_fullscreen_by_on_off " ++ value] }

/-- The handler registered for ("graphics", "wireframe"): enables wireframe
mode on "on", disables it on "off", does nothing otherwise. -/
def wireframe_handler (s : MenuState) (value : String) : MenuState :=
  if value = "on" then
    { s with window_events := s.window_events ++ ["enable_wireframe_mode"] }
  else if value = "off" then
    { s with window_events := s.window_events ++ ["disable_wireframe_mode"] }
  else s

end ConfigHandlers

/-- `process_and_queue_render_menu` as observable on the menu state: the
function itself only reads `curr_state` and hands the listed screens to the
external render suite; it performs no write of its own. -/
def process_and_queue_render_menu (s : MenuState) : MenuState × List UIState :=
  (s, processed_states s.curr_state)

/-- Reading a configuration pair right after writing it yields the written
value. -/
theorem get_value_set_value_same (c : Config) (sec key v : String) :
    get_value (set_value c sec key v) sec key = some v := by
  simp [get_value, set_value, List.find?]

/-- C1: the per-frame render set is `[S] ++ get_ui_dependencies S`, it has
no duplicates, `get_ui_dependencies` is a total function of the enum (it is
a Lean function) returning `[]` for MAIN_MENU, SETTINGS_MENU and ABOUT and
exactly `[SETTINGS_MENU]` for each of the five sub-settings states. -/
theorem render_set_and_dependencies_spec :
    (∀ S : UIState, uis_to_render S = S :: get_ui_dependencies S ∧ (uis_to_render S).Nodup) ∧
    get_ui_dependencies UIState.MAIN_MENU = [] ∧
    get_ui_dependencies UIState.SETTINGS_MENU = [] ∧
    get_ui_dependencies UIState.ABOUT = [] ∧
    get_ui_dependencies UIState.PROGRAM_SETTINGS = [UIState.SETTINGS_MENU] ∧
    get_ui_dependencies UIState.INPUT_SETTINGS = [UIState.SETTINGS_MENU] ∧
    get_ui_dependencies UIState.SOUND_SETTINGS = [UIState.SETTINGS_MENU] ∧
    get_ui_dependencies UIState.GRAPHICS_SETTINGS = [UIState.SETTINGS_MENU] ∧
    get_ui_dependencies UIState.ADVANCED_SETTINGS = [UIState.SETTINGS_MENU] := by
  refine ⟨fun S => ⟨rfl, ?_⟩, rfl, rfl, rfl, rfl, rfl, rfl, rfl, rfl⟩
  cases S <;> decide

/-- C2: from the initial state MAIN_MENU, the SETTINGS click sets
`curr_state` to PROGRAM_SETTINGS, the SettingsMenu BACK click brings it
back to MAIN_MENU, the QUIT click leaves `curr_state` unchanged and sets
the window-should-close flag, and the RESUME click sets `enabled` to false
without changing `curr_state`. -/
theorem main_menu_transitions_spec :
    initial_menu_state.curr_state = UIState.MAIN_MENU ∧
    (MainMenu.on_click_settings initial_menu_state).curr_state = UIState.PROGRAM_SETTINGS ∧
    (SettingsMenu.on_back_clicked
      (MainMenu.on_click_settings initial_menu_state)).curr_state = UIState.MAIN_MENU ∧
    (MainMenu.on_game_quit initial_menu_state).curr_state = initial_menu_state.curr_state ∧
    (MainMenu.on_game_quit initial_menu_state).window_should_close = true ∧
    (MainMenu.on_program_start initial_menu_state).enabled = false ∧
    (MainMenu.on_program_start initial_menu_state).curr_state =
      initial_menu_state.curr_state :=
  ⟨rfl, rfl, rfl, rfl, rfl, rfl, rfl⟩

/-- C3: for every raw pointer position and non-zero viewport, the corrected
coordinate is `(((2*raw_x/width) - 1) * (width/height), 1 - 2*raw_y/height)`;
for viewport 1920x1080, raw (960,540) maps to (0,0), raw (0,0) to
(-16/9, 1) and raw (1920,1080) to (16/9, -1). -/
theorem pointer_to_corrected_spec :
    (∀ raw_x raw_y width height : ℚ, width ≠ 0 → height ≠ 0 →
      pointer_to_corrected raw_x raw_y width height =
        (((2 * raw_x / width) - 1) * (width / height), 1 - 2 * raw_y / height)) ∧
    pointer_to_corrected 960 540 1920 1080 = (0, 0) ∧
    pointer_to_corrected 0 0 1920 1080 = (-(16 / 9), 1) ∧
    pointer_to_corrected 1920 1080 1920 1080 = (16 / 9, -1) := by
  refine ⟨fun raw_x raw_y width height hw hh => rfl, ?_, ?_, ?_⟩ <;>
    · simp only [pointer_to_corrected, get_ndc_mouse_pos, aspect_corrected_ndc_mouse_pos,
        Prod.mk.injEq]
      norm_num

/-- Witness for C3 at raw (960,540), viewport 1920x1080. -/
theorem pointer_to_corrected_spec_witness :
    pointer_to_corrected 960 540 1920 1080 =
      (((2 * 960 / 1920) - 1) * (1920 / 1080), 1 - 2 * 540 / 1080) :=
  pointer_to_corrected_spec.1 960 540 1920 1080 (by norm_num) (by norm_num)

/-- A configuration with wireframe "on" and show_fps "off". -/
def c4_failing_config : Config :=
  set_value (set_value [] "graphics" "wireframe" "on") "graphics" "show_fps" "off"

/-- C4 (divergence): with wireframe = "on" and show_fps = "off", the
show-fps and show-pos dropdowns are built with selected index 0 — the index
left over from the wireframe lookup — although "off", the show_fps backing
value, sits at index 1 of their option list; the resolution, fullscreen and
wireframe dropdowns do use their own backing values. -/
theorem show_fps_dropdown_stale_index :
    get_value c4_failing_config "graphics" "show_fps" = some "off" ∧
    get_index_or_default "off" ["on", "off"] = 1 ∧
    (GraphicsSettings.create_graphics_settings_dropdowns c4_failing_config
        ["1920x1080"]).get? 3 =
      some { options := ["on", "off"], selected := 0,
             config_section := "graphics", config_key := "show_fps" } ∧
    (GraphicsSettings.create_graphics_settings_dropdowns c4_failing_config
        ["1920x1080"]).get? 4 =
      some { options := ["on", "off"], selected := 0,
             config_section := "graphics", config_key := "show_pos" } ∧
    (GraphicsSettings.create_graphics_settings_dropdowns c4_failing_config
        ["1920x1080"]).get? 2 =
      some { options := ["on", "off"], selected := 0,
             config_section := "graphics", config_key := "wireframe" } := by
  refine ⟨?_, ?_, ?_, ?_, ?_⟩ <;> decide

/-- C5 (counterexample): the option "axb" contains the separator 'x', yet
the callback does not persist it — `std::stoi("a")` raises
`invalid_argument` — and the configuration is unchanged. -/
theorem resolution_click_with_separator_not_persisted :
    findChar "axb".data 'x' = some 1 ∧
    (GraphicsSettings.resolution_dropdown_on_click initial_menu_state "axb").1.config =
      initial_menu_state.config ∧
    (GraphicsSettings.resolution_dropdown_on_click initial_menu_state "axb").2 =
      some (GraphicsSettings.ResolutionClickError.stoiFailure StoiError.invalidArgument) := by
  refine ⟨?_, ?_, ?_⟩ <;> decide

/-- C5 (amended): a string with no 'x' makes the callback raise the
invalid-format error with the configuration unchanged; a string whose 'x'
splits it into two parts both accepted by `std::stoi` is persisted verbatim
under ("graphics", "resolution") with no error; and whenever any error
escapes, the configuration is unchanged. -/
theorem resolution_dropdown_on_click_spec :
    ∀ (s : MenuState) (option : String),
      (findChar option.data 'x' = none →
        GraphicsSettings.resolution_dropdown_on_click s option =
          (queue_sound s SoundType.UI_CLICK,
           some GraphicsSettings.ResolutionClickError.invalidFormat)) ∧
      (∀ i w h, findChar option.data 'x' = some i →
        stoi (String.mk (option.data.take i)) = Except.ok w →
        stoi (String.mk (option.data.drop (i + 1))) = Except.ok h →
        (GraphicsSettings.resolution_dropdown_on_click s option).2 = none ∧
        get_value (GraphicsSettings.resolution_dropdown_on_click s option).1.config
          "graphics" "resolution" = some option) ∧
      ((GraphicsSettings.resolution_dropdown_on_click s option).2.isSome = true →
        (GraphicsSettings.resolution_dropdown_on_click s option).1.config = s.config) := by
  intro s option
  refine ⟨fun hnone => ?_, fun i w h hfind hw hh => ?_, fun herr => ?_⟩
  · simp [GraphicsSettings.resolution_dropdown_on_click, hnone]
  · simp [GraphicsSettings.resolution_dropdown_on_click, hfind, hw, hh,
      get_value_set_value_same, queue_sound]
  · rcases hfind : findChar option.data 'x' with _ | i
    · simp [GraphicsSettings.resolution_dropdown_on_click, hfind, queue_sound]
    · rcases hw : stoi (String.mk (option.data.take i)) with e | w
      · simp [GraphicsSettings.resolution_dropdown_on_click, hfind, hw, queue_sound]
      · rcases hh : stoi (String.mk (option.data.drop (i + 1))) with e | h
        · simp [GraphicsSettings.resolution_dropdown_on_click, hfind, hw, hh, queue_sound]
        · simp [GraphicsSettings.resolution_dropdown_on_click, hfind, hw, hh] at herr

/-- Witness for C5 (amended) at "1280x720" (persisted verbatim) and
"1280960" (no separator: invalid-format error, configuration unchanged). -/
theorem resolution_dropdown_on_click_spec_witness :
    ((GraphicsSettings.resolution_dropdown_on_click initial_menu_state "1280x720").2 = none ∧
     get_value (GraphicsSettings.resolution_dropdown_on_click initial_menu_state
       "1280x720").1.config "graphics" "resolution" = some "1280x720") ∧
    GraphicsSettings.resolution_dropdown_on_click initial_menu_state "1280960" =
      (queue_sound initial_menu_state SoundType.UI_CLICK,
       some GraphicsSettings.ResolutionClickError.invalidFormat) := by
  have h1 := (resolution_dropdown_on_click_spec initial_menu_state "1280x720").2.1
    4 1280 720 (by decide) (by rfl) (by rfl)
  have h2 := (resolution_dropdown_on_click_spec initial_menu_state "1280960").1 (by decide)
  exact ⟨h1, h2⟩

/-- C6: a key string accepted by the validity predicate is persisted under
("input", key_str) and a click sound is queued, with `curr_state` and the
warnings untouched; a rejected one leaves the configuration, sounds and
`curr_state` unchanged and appends a warning. -/
theorem key_on_confirm_spec :
    ∀ (is_valid : String → Bool) (key_str : String) (s : MenuState) (v : String),
      (is_valid v = true →
        (InputSettings.key_on_confirm is_valid key_str s v).config =
          set_value s.config "input" key_str v ∧
        get_value (InputSettings.key_on_confirm is_valid key_str s v).config
          "input" key_str = some v ∧
        (InputSettings.key_on_confirm is_valid key_str s v).sounds =
          s.sounds ++ [SoundType.UI_CLICK] ∧
        (InputSettings.key_on_confirm is_valid key_str s v).curr_state = s.curr_state ∧
        (InputSettings.key_on_confirm is_valid key_str s v).warnings = s.warnings) ∧
      (is_valid v = false →
        (InputSettings.key_on_confirm is_valid key_str s v).config = s.config ∧
        (InputSettings.key_on_confirm is_valid key_str s v).sounds = s.sounds ∧
        (InputSettings.key_on_confirm is_valid key_str s v).curr_state = s.curr_state ∧
        (InputSettings.key_on_confirm is_valid key_str s v).warnings = s.warnings ++
          [v ++ " is not a valid key string, not setting it in the config, use a proper value."]) := by
  intro is_valid key_str s v
  constructor
  · intro hv
    simp [InputSettings.key_on_confirm, hv, get_value_set_value_same]
  · intro hv
    simp [InputSettings.key_on_confirm, hv]

/-- Witness for C6 with the predicate accepting exactly "w": "w" is
persisted under ("input", "forward"); "zz" leaves the configuration
unchanged. -/
theorem key_on_confirm_spec_witness :
    get_value (InputSettings.key_on_confirm (fun x => x == "w") "forward"
      initial_menu_state "w").config "input" "forward" = some "w" ∧
    (InputSettings.key_on_confirm (fun x => x == "w") "forward"
      initial_menu_state "zz").config = initial_menu_state.config := by
  have h1 := (key_on_confirm_spec (fun x => x == "w") "forward" initial_menu_state "w").1 rfl
  have h2 := (key_on_confirm_spec (fun x => x == "w") "forward" initial_menu_state "zz").2 rfl
  exact ⟨h1.2.1, h2.1⟩

/-- C7 (counterexample): with PROGRAM_SETTINGS active, the per-frame loop
processes the screens as [PROGRAM_SETTINGS, SETTINGS_MENU] — the active
screen first — so SETTINGS_MENU is not processed before the active one. -/
theorem dependencies_processed_after_active :
    processed_states UIState.PROGRAM_SETTINGS =
      [UIState.PROGRAM_SETTINGS, UIState.SETTINGS_MENU] ∧
    ¬ List.indexOf UIState.SETTINGS_MENU (processed_states UIState.PROGRAM_SETTINGS) <
        List.indexOf UIState.PROGRAM_SETTINGS (processed_states UIState.PROGRAM_SETTINGS) := by
  refine ⟨?_, ?_⟩ <;> decide

/-- C7 (amended): each frame the per-screen processing is invoked on
`[curr_state] ++ get_ui_dependencies curr_state` in that order — the active
state's screen first, its dependency screens after it; in particular every
sub-settings state is processed before SETTINGS_MENU. -/
theorem active_screen_processed_first :
    (∀ S : UIState, processed_states S = S :: get_ui_dependencies S) ∧
    processed_states UIState.PROGRAM_SETTINGS =
      [UIState.PROGRAM_SETTINGS, UIState.SETTINGS_MENU] ∧
    processed_states UIState.INPUT_SETTINGS =
      [UIState.INPUT_SETTINGS, UIState.SETTINGS_MENU] ∧
    processed_states UIState.SOUND_SETTINGS =
      [UIState.SOUND_SETTINGS, UIState.SETTINGS_MENU] ∧
    processed_states UIState.GRAPHICS_SETTINGS =
      [UIState.GRAPHICS_SETTINGS, UIState.SETTINGS_MENU] ∧
    processed_states UIState.ADVANCED_SETTINGS =
      [UIState.ADVANCED_SETTINGS, UIState.SETTINGS_MENU] := by
  refine ⟨fun S => ?_, ?_, ?_, ?_, ?_, ?_⟩
  · cases S <;> decide
  all_goals decide

/-- C8: the resolution dropdown's option list is the queried sequence, or
exactly ["1920x1080"] when the query came back empty. -/
theorem resolution_fallback_spec :
    ∀ (config : Config) (queried : List String),
      ((GraphicsSettings.create_graphics_settings_dropdowns config queried).get? 0).map
          GraphicsSettings.Dropdown.options =
        some (GraphicsSettings.resolutions_with_fallback queried) ∧
      (queried = [] → GraphicsSettings.resolutions_with_fallback queried = ["1920x1080"]) ∧
      (queried ≠ [] → GraphicsSettings.resolutions_with_fallback queried = queried) := by
  intro config queried
  refine ⟨rfl, fun h => ?_, fun h => ?_⟩
  · subst h; rfl
  · simp [GraphicsSettings.resolutions_with_fallback, h]

/-- Witness for C8 with an empty and a non-empty query result. -/
theorem resolution_fallback_spec_witness :
    GraphicsSettings.resolutions_with_fallback [] = ["1920x1080"] ∧
    GraphicsSettings.resolutions_with_fallback ["800x600"] = ["800x600"] := by
  have h1 := (resolution_fallback_spec [] []).2.1 rfl
  have h2 := (resolution_fallback_spec [] ["800x600"]).2.2 (by simp)
  exact ⟨h1, h2⟩

/-- C9: the "move up" input box is wired with `key_str = "left"`, the same
configuration key as the "move left" box (and no box uses an up-specific
key), so when both confirmed values pass validation, the later confirm
through either box overwrites the ("input", "left") entry written by the
earlier one. -/
theorem move_up_aliases_move_left :
    (InputSettings.key_binding_boxes.lookup "move up" = some "left" ∧
     InputSettings.key_binding_boxes.lookup "move left" = some "left" ∧
     "up" ∉ InputSettings.key_binding_boxes.map Prod.snd) ∧
    ∀ (is_valid : String → Bool) (s : MenuState) (v1 v2 : String),
      is_valid v1 = true → is_valid v2 = true →
      get_value (InputSettings.key_on_confirm is_valid "left"
        (InputSettings.key_on_confirm is_valid "left" s v1) v2).config
        "input" "left" = some v2 := by
  refine ⟨⟨by decide, by decide, by decide⟩, fun is_valid s v1 v2 h1 h2 => ?_⟩
  simp [InputSettings.key_on_confirm, h1, h2, get_value_set_value_same]

/-- Witness for C9: confirming "space" through the "move up" box and then
"a" through the "move left" box leaves ("input", "left") = "a". -/
theorem move_up_aliases_move_left_witness :
    get_value (InputSettings.key_on_confirm (fun _ => true) "left"
      (InputSettings.key_on_confirm (fun _ => true) "left" initial_menu_state "space")
      "a").config "input" "left" = some "a" :=
  move_up_aliases_move_left.2 (fun _ => true) initial_menu_state "space" "a" rfl rfl

/-- C10: the RESUME click (`on_program_start`) sets `enabled` to false and
is the only operation touching it: every other callback of the module, the
registered configuration handlers and `process_and_queue_render_menu`
return a state whose `enabled` equals the input's, so no path sets
`enabled` back to true. -/
theorem enabled_flag_mutation_spec :
    (∀ s, (MainMenu.on_program_start s).enabled = false) ∧
    (∀ s, (MainMenu.on_program_start s).curr_state = s.curr_state) ∧
    (∀ s, (on_hover s).enabled = s.enabled) ∧
    (∀ s v, (dropdown_on_hover s v).enabled = s.enabled) ∧
    (∀ s, (MainMenu.on_click_settings s).enabled = s.enabled) ∧
    (∀ s, (MainMenu.on_click_about s).enabled = s.enabled) ∧
    (∀ s, (MainMenu.on_game_quit s).enabled = s.enabled) ∧
    (∀ s, (MainMenu.on_back_clicked s).enabled = s.enabled) ∧
    (∀ s, (About.on_back_clicked s).enabled = s.enabled) ∧
    (∀ s v, (About.on_confirm s v).enabled = s.enabled) ∧
    (∀ s, (SettingsMenu.on_back_clicked s).enabled = s.enabled) ∧
    (∀ s, (SettingsMenu.on_apply_clicked s).enabled = s.enabled) ∧
    (∀ s, (SettingsMenu.on_save_clicked s).enabled = s.enabled) ∧
    (∀ s, (SettingsMenu.settings_on_click s).enabled = s.enabled) ∧
    (∀ s, (SettingsMenu.player_on_click s).enabled = s.enabled) ∧
    (∀ s, (SettingsMenu.input_on_click s).enabled = s.enabled) ∧
    (∀ s, (SettingsMenu.sound_on_click s).enabled = s.enabled) ∧
    (∀ s, (SettingsMenu.graphics_on_click s).enabled = s.enabled) ∧
    (∀ s, (SettingsMenu.network_on_click s).enabled = s.enabled) ∧
    (∀ s v, (PlayerSettings.on_confirm s v).enabled = s.enabled) ∧
    (∀ s v, (PlayerSettings.username_on_confirm s v).enabled = s.enabled) ∧
    (∀ s v, (InputSettings.sens_on_click s v).enabled = s.enabled) ∧
    (∀ s v, (InputSettings.on_confirm s v).enabled = s.enabled) ∧
    (∀ f k s v, (InputSettings.key_on_confirm f k s v).enabled = s.enabled) ∧
    (∀ s v, (GraphicsSettings.on_confirm s v).enabled = s.enabled) ∧
    (∀ s, (GraphicsSettings.on_click_settings s).enabled = s.enabled) ∧
    (∀ s v, (GraphicsSettings.empty_on_click s v).enabled = s.enabled) ∧
    (∀ s v, (GraphicsSettings.resolution_dropdown_on_click s v).1.enabled = s.enabled) ∧
    (∀ s v, (GraphicsSettings.fullscreen_on_click s v).enabled = s.enabled) ∧
    (∀ s v, (GraphicsSettings.wireframe_on_click s v).enabled = s.enabled) ∧
    (∀ s v, (GraphicsSettings.fov_on_confirm s v).enabled = s.enabled) ∧
    (∀ s v, (GraphicsSettings.max_fps_on_confirm s v).enabled = s.enabled) ∧
    (∀ s v, (GraphicsSettings.show_fps_on_click s v).enabled = s.enabled) ∧
    (∀ s v, (GraphicsSettings.show_pos_on_click s v).enabled = s.enabled) ∧
    (∀ s v, (ConfigHandlers.resolution_handler s v).enabled = s.enabled) ∧
    (∀ s v, (ConfigHandlers.fullscreen_handler s v).enabled = s.enabled) ∧
    (∀ s v, (ConfigHandlers.wireframe_handler s v).enabled = s.enabled) ∧
    (∀ s, (process_and_queue_render_menu s).1.enabled = s.enabled) := by
  refine ⟨fun s => rfl, fun s => rfl, fun s => rfl, fun s v => rfl, fun s => rfl,
    fun s => rfl, fun s => rfl, fun s => rfl, fun s => rfl, fun s v => rfl,
    fun s => rfl, fun s => rfl, fun s => rfl, fun s => rfl, fun s => rfl,
    fun s => rfl, fun s => rfl, fun s => rfl, fun s => rfl, fun s v => rfl,
    fun s v => rfl, fun s v => rfl, fun s v => rfl, fun f k s v => ?_,
    fun s v => rfl, fun s => rfl, fun s v => rfl, fun s v => ?_,
    fun s v => rfl, fun s v => rfl, fun s v => rfl, fun s v => rfl,
    fun s v => rfl, fun s v => rfl, fun s v => rfl, fun s v => rfl,
    fun s v => ?_, fun s => rfl⟩
  · unfold InputSettings.key_on_confirm
    split <;> rfl
  · unfold GraphicsSettings.resolution_dropdown_on_click
    repeat' split
    all_goals rfl
  · unfold ConfigHandlers.wireframe_handler
    split <;> [rfl; split <;> rfl]


